import Mathlib

/-!
Verification development for `src/static/js/main.js` of the landing-page
repository.  The file shallowly embeds the four initializers of that script:

* `initScrollAnimations`  — the IntersectionObserver callback adding the
  class `animate-in` (modelled by `observerCallback` / `runObserver`);
* `initQuizPreview`       — the simulated quiz state machine (modelled by
  `clickOption`, `delayFires` and friends over `QuizState`);
* `initSmoothScrolling`   — the anchor click handler (`handleAnchorClick`);
* `initParallaxEffects`   — the scroll handler for the gradient orbs
  (`orbTransform`, `parallaxScrollHandler`).

JavaScript numbers are modelled as rationals.  For every numeric expression
the script actually evaluates this is exact: the only non-trivial arithmetic
is `(currentQuestion / totalQuestions) * 100`, and for `currentQuestion`
between 1 and 10 the IEEE-double result is exactly the integer
`currentQuestion * 10`, printed by JavaScript as the plain integer numeral.
DOM elements that the script only reads or writes through a guarded lookup
are modelled by presence flags plus the relevant content fields; purely
cosmetic hover/`translateX` styling, which no property mentions, is omitted.
-/

set_option autoImplicit false

/-! ### Quiz preview (`initQuizPreview`, main.js lines 40–128) -/

/-- Source line 49: `const totalQuestions = 10`. -/
def totalQuestions : Nat := 10

/-- Source lines 101–107: the hardcoded list of preview question strings. -/
def questions : List String :=
  ["What motivates you most in life?",
   "How do you handle stress?",
   "What\x27s your ideal weekend?",
   "How do you make decisions?",
   "What energizes you most?"]

/-- Source line 118: the innerHTML written into `.quiz-question` on
completion.  The message starts with the four characters U+00F0 U+0178
U+017D U+2030 ("ðŸŽ‰"): the source file's literal bytes are the mojibake of
the party-popper emoji's UTF-8 bytes re-read as CP1252, and the model
reproduces them as written. -/
def completionHtml : String :=
  "<p style=\"color: #10b981; font-weight: 600;\">ðŸŽ‰ Quiz Complete! Great job!</p>"

/-- Which of the DOM elements looked up by `initQuizPreview` are present in
the host document (`.quiz-card`, the `.option` elements, `.progress-fill`,
`.progress-text`, `.quiz-question p`, `.quiz-question`). -/
structure QuizDoc where
  hasQuizCard : Bool
  numOptions : Nat
  hasProgressFill : Bool
  hasProgressText : Bool
  hasQuestionText : Bool
  hasQuizQuestion : Bool
deriving DecidableEq

/-- The mutable state owned by `initQuizPreview`: the closed-over counter
`currentQuestion`, the number of scheduled `setTimeout` callbacks that have
not fired yet, and the DOM content the handlers write (`selected` is the set
of option indices whose classList contains `selected`). -/
structure QuizState where
  currentQuestion : Nat
  pendingTimeouts : Nat
  selected : Finset Nat
  progressFillWidth : String
  progressText : String
  questionText : String
  quizQuestionHtml : String
deriving DecidableEq

/-- Rendering of the style value written on source line 86
(`progressFill.style.width` is the template string of `progress` and a
percent sign).  For every value the script produces the rational is an
integer, and JavaScript prints such a double as the plain integer numeral;
the fractional branch is never reached by the program. -/
def percentString (q : ℚ) : String :=
  (if q.den = 1 then toString q.num
   else toString q.num ++ "/" ++ toString q.den) ++ "%"

/-- Source lines 83–91, `updateProgress`: writes the width of
`.progress-fill` and the text of `.progress-text`, each under its own
presence guard. -/
def updateProgress (doc : QuizDoc) (s : QuizState) : QuizState :=
  { s with
    progressFillWidth :=
      if doc.hasProgressFill then
        percentString (((s.currentQuestion : ℚ) / (totalQuestions : ℚ)) * 100)
      else s.progressFillWidth,
    progressText :=
      if doc.hasProgressText then
        "Question " ++ toString s.currentQuestion ++ " of " ++ toString totalQuestions
      else s.progressText }

/-- Source lines 93–113, `simulateNextQuestion`: clears the `selected` class
from every option, then — if `.quiz-question p` exists and
`currentQuestion <= questions.length` — writes
`questions[currentQuestion - 1]` into it.  (The script also resets the
options' `translateX` style, which no property mentions.)  The `getD`
default mirrors JavaScript's out-of-range `undefined`; it is unreachable
under the guard because the function is only called with
`currentQuestion ≥ 2`. -/
def simulateNextQuestion (doc : QuizDoc) (s : QuizState) : QuizState :=
  { s with
    selected := ∅,
    questionText :=
      if doc.hasQuestionText ∧ s.currentQuestion ≤ questions.length then
        questions.getD (s.currentQuestion - 1) "undefined"
      else s.questionText }

/-- Source lines 115–127, `showQuizComplete`: replaces the `.quiz-question`
innerHTML with the completion message and sets the progress fill and text,
each under its own presence guard. -/
def showQuizComplete (doc : QuizDoc) (s : QuizState) : QuizState :=
  { s with
    quizQuestionHtml :=
      if doc.hasQuizQuestion then completionHtml else s.quizQuestionHtml,
    progressFillWidth :=
      if doc.hasProgressFill then "100%" else s.progressFillWidth,
    progressText :=
      if doc.hasProgressText then "Quiz Complete!" else s.progressText }

/-- Source lines 70–79, the body of the `setTimeout` callback after the
increment of `currentQuestion`: branch on `currentQuestion <= totalQuestions`
into `updateProgress` and `simulateNextQuestion`, or `showQuizComplete`. -/
def advanceQuestion (doc : QuizDoc) (s : QuizState) : QuizState :=
  if s.currentQuestion ≤ totalQuestions then
    simulateNextQuestion doc (updateProgress doc s)
  else
    showQuizComplete doc s

/-- Source lines 61–67, the synchronous part of the option click handler:
if `initQuizPreview` attached listeners (the `.quiz-card` guard on line 46)
and option `i` exists, remove `selected` from every option, add it to the
clicked one, and schedule one `setTimeout` callback. -/
def clickOption (doc : QuizDoc) (i : Nat) (s : QuizState) : QuizState :=
  if doc.hasQuizCard ∧ i < doc.numOptions then
    { s with selected := {i}, pendingTimeouts := s.pendingTimeouts + 1 }
  else s

/-- Source lines 70–79: one scheduled `setTimeout` callback fires (a no-op
when none is pending, since the browser only runs callbacks that were
scheduled): `currentQuestion++` followed by the completion branch. -/
def delayFires (doc : QuizDoc) (s : QuizState) : QuizState :=
  if 0 < s.pendingTimeouts then
    advanceQuestion doc
      { s with pendingTimeouts := s.pendingTimeouts - 1,
               currentQuestion := s.currentQuestion + 1 }
  else s

/-- Events the quiz preview reacts to: a click on option `i`, or the firing
of a pending 1-second delay. -/
inductive QuizEvent where
  | click (i : Nat)
  | delay
deriving DecidableEq

/-- One event step of the quiz preview. -/
def quizStep (doc : QuizDoc) (s : QuizState) (e : QuizEvent) : QuizState :=
  match e with
  | QuizEvent.click i => clickOption doc i s
  | QuizEvent.delay => delayFires doc s

/-- Run a sequence of quiz events. -/
def runEvents (doc : QuizDoc) (evs : List QuizEvent) (s : QuizState) : QuizState :=
  evs.foldl (quizStep doc) s

/-- Number of delay firings in an event sequence. -/
def countDelays : List QuizEvent → Nat
  | [] => 0
  | QuizEvent.delay :: evs => countDelays evs + 1
  | QuizEvent.click _ :: evs => countDelays evs

/-- One full simulated selection: click option `i`, then let the scheduled
1-second delay elapse. -/
def selectAndWait (doc : QuizDoc) (i : Nat) (s : QuizState) : QuizState :=
  delayFires doc (clickOption doc i s)

/-- Run one simulated selection per entry of `choices` (each entry is the
index of the option clicked), each followed by its delay elapsing. -/
def runSelectionsAlong (doc : QuizDoc) (choices : List Nat) (s : QuizState) : QuizState :=
  choices.foldl (fun t i => selectAndWait doc i t) s

/-- Modelled from the spec: the landing-page HTML is not under `src/`; per
the spec the quiz card, the option elements (four of them — the exact count
is not fixed by the spec and nothing below depends on it) and the progress
and question elements are all present. -/
def fullDoc : QuizDoc :=
  { hasQuizCard := true, numOptions := 4, hasProgressFill := true,
    hasProgressText := true, hasQuestionText := true, hasQuizQuestion := true }

/-- The document with the `.progress-fill` element absent, all else present. -/
def noFillDoc : QuizDoc :=
  { fullDoc with hasProgressFill := false }

/-- Modelled from the spec: the initial DOM state of the quiz card comes
from the HTML, which is not under `src/`.  Per the spec the page loads at
question 1 of 10 with no option selected, the first preview question
displayed, and the progress indicator reflecting question 1 of 10. -/
def initialQuizState : QuizState :=
  { currentQuestion := 1,
    pendingTimeouts := 0,
    selected := ∅,
    progressFillWidth := "10%",
    progressText := "Question 1 of 10",
    questionText := questions.getD 0 "",
    quizQuestionHtml := "<p>" ++ questions.getD 0 "" ++ "</p>" }

/-- The spec's state space for the quiz preview: `AwaitingSelection n` for
`n` in `[1,10]`, and the terminal `Completed`. -/
inductive QuizPhase where
  | awaitingSelection (n : Nat)
  | completed
deriving DecidableEq

/-- The spec-level phase denoted by a concrete quiz state: `Completed` is
signalled by the counter having passed `totalQuestions`. -/
def specPhase (s : QuizState) : QuizPhase :=
  if s.currentQuestion ≤ totalQuestions then
    QuizPhase.awaitingSelection s.currentQuestion
  else
    QuizPhase.completed

/-! ### Scroll animations (`initScrollAnimations`, main.js lines 13–32) -/

/-- One entry passed to the IntersectionObserver callback: the index of the
observed element and whether it currently intersects the viewport. -/
structure IntersectionEntry where
  target : Nat
  isIntersecting : Bool
deriving DecidableEq

/-- Source lines 19–25: the observer callback; `revealed` is the set of
observed elements whose classList contains `animate-in` (`classList.add`
has set semantics, hence `insert`). -/
def observerCallback (revealed : Finset Nat) (entries : List IntersectionEntry) : Finset Nat :=
  entries.foldl
    (fun acc e => if e.isIntersecting then insert e.target acc else acc) revealed

/-- Run a sequence of observer callback invocations. -/
def runObserver (revealed : Finset Nat) (batches : List (List IntersectionEntry)) : Finset Nat :=
  batches.foldl observerCallback revealed

/-- The set of targets an entry batch reports as intersecting (proof-side
helper for reasoning about `observerCallback`). -/
def intersectingTargets : List IntersectionEntry → Finset Nat
  | [] => ∅
  | e :: es =>
      if e.isIntersecting then insert e.target (intersectingTargets es)
      else intersectingTargets es

/-! ### Smooth scrolling (`initSmoothScrolling`, main.js lines 131–148) -/

/-- Characters allowed in the identifier part of a CSS ID selector (ASCII
approximation of a CSS identifier; only its rejection of the empty string
is load-bearing below). -/
def isCssIdentChar (c : Char) : Bool :=
  c.isAlphanum || c == Char.ofNat 45 || c == Char.ofNat 95

/-- Whether a string is a valid CSS ID selector: a hash sign (U+0023)
followed by a nonempty identifier that does not start with a digit. -/
def isValidIdSelector (sel : String) : Bool :=
  match sel.data with
  | [] => false
  | c :: ident =>
      c == Char.ofNat 35 && !ident.isEmpty && ident.all isCssIdentChar &&
        !(ident.headD (Char.ofNat 97)).isDigit

/-- Modelled browser API: `document.querySelector` over a document whose
elements are listed by id.  Per the WHATWG DOM standard the call throws a
`SyntaxError` DOMException when the argument is not a valid selector — in
particular for the bare string of a single hash sign, whose identifier part
is empty; otherwise it returns the first match or null (`none`). -/
def querySelectorId (docElems : List String) (sel : String) : Except String (Option String) :=
  if isValidIdSelector sel then
    Except.ok (docElems.find? (fun x => "#" ++ x == sel))
  else
    Except.error "SyntaxError: not a valid selector"

/-- The scrollIntoView request issued on source lines 141–144. -/
structure ScrollRequest where
  target : String
  behavior : String
  block : String
deriving DecidableEq

/-- Result of one anchor click when the handler returns normally. -/
structure AnchorClickOutcome where
  defaultPrevented : Bool
  scrolled : Option ScrollRequest
deriving DecidableEq

/-- Source lines 135–146, the anchor click handler: `preventDefault`, then
look up the raw `href` value with `querySelector`, then scroll when an
element was found.  An `Except.error` means the handler threw (the default
is already prevented at that point, since `preventDefault` runs first). -/
def handleAnchorClick (docElems : List String) (href : String) : Except String AnchorClickOutcome :=
  match querySelectorId docElems href with
  | Except.error msg => Except.error msg
  | Except.ok none =>
      Except.ok { defaultPrevented := true, scrolled := none }
  | Except.ok (some t) =>
      Except.ok { defaultPrevented := true,
                  scrolled := some { target := t, behavior := "smooth", block := "start" } }

/-! ### Parallax effects (`initParallaxEffects`, main.js lines 151–163) -/

/-- The transform written to a gradient orb: vertical translation in pixels
and rotation in degrees. -/
structure OrbTransform where
  translateY : ℚ
  rotateDeg : ℚ
deriving DecidableEq

/-- Source lines 155–160: `rate = scrolled * -0.5`, `speed = (index + 1) * 0.1`,
and the orb's transform `translateY(rate * speed px) rotate(scrolled * 0.1 deg)`. -/
def orbTransform (scrolled : ℚ) (index : Nat) : OrbTransform :=
  let rate : ℚ := scrolled * (-(1 / 2))
  let speed : ℚ := ((index : ℚ) + 1) * (1 / 10)
  { translateY := rate * speed, rotateDeg := scrolled * (1 / 10) }

/-- One firing of the scroll handler over a document with `numOrbs` gradient
orbs: the transform written to each orb, in orb order. -/
def parallaxScrollHandler (numOrbs : Nat) (scrolled : ℚ) : List OrbTransform :=
  (List.range numOrbs).map (orbTransform scrolled)

/-! ### Helper lemmas -/

theorem clickOption_currentQuestion (doc : QuizDoc) (i : Nat) (s : QuizState) :
    (clickOption doc i s).currentQuestion = s.currentQuestion := by
  unfold clickOption
  split <;> rfl

theorem clickOption_of_valid (doc : QuizDoc) (i : Nat) (s : QuizState)
    (hcard : doc.hasQuizCard = true) (hi : i < doc.numOptions) :
    clickOption doc i s =
      { s with selected := {i}, pendingTimeouts := s.pendingTimeouts + 1 } := by
  unfold clickOption
  rw [if_pos ⟨hcard, hi⟩]

theorem advanceQuestion_currentQuestion (doc : QuizDoc) (s : QuizState) :
    (advanceQuestion doc s).currentQuestion = s.currentQuestion := by
  unfold advanceQuestion
  split <;> rfl

theorem advanceQuestion_pendingTimeouts (doc : QuizDoc) (s : QuizState) :
    (advanceQuestion doc s).pendingTimeouts = s.pendingTimeouts := by
  unfold advanceQuestion
  split <;> rfl

theorem advanceQuestion_selected (doc : QuizDoc) (s : QuizState) :
    (advanceQuestion doc s).selected =
      if s.currentQuestion ≤ totalQuestions then ∅ else s.selected := by
  unfold advanceQuestion
  split <;> rfl

theorem advanceQuestion_progressText (doc : QuizDoc) (s : QuizState) :
    (advanceQuestion doc s).progressText =
      if s.currentQuestion ≤ totalQuestions then
        (if doc.hasProgressText then
          "Question " ++ toString s.currentQuestion ++ " of " ++ toString totalQuestions
         else s.progressText)
      else
        (if doc.hasProgressText then "Quiz Complete!" else s.progressText) := by
  unfold advanceQuestion
  split <;> rfl

theorem advanceQuestion_progressFillWidth (doc : QuizDoc) (s : QuizState) :
    (advanceQuestion doc s).progressFillWidth =
      if s.currentQuestion ≤ totalQuestions then
        (if doc.hasProgressFill then
          percentString (((s.currentQuestion : ℚ) / (totalQuestions : ℚ)) * 100)
         else s.progressFillWidth)
      else
        (if doc.hasProgressFill then "100%" else s.progressFillWidth) := by
  unfold advanceQuestion
  split <;> rfl

theorem advanceQuestion_questionText (doc : QuizDoc) (s : QuizState) :
    (advanceQuestion doc s).questionText =
      if s.currentQuestion ≤ totalQuestions then
        (if doc.hasQuestionText ∧ s.currentQuestion ≤ questions.length then
          questions.getD (s.currentQuestion - 1) "undefined"
         else s.questionText)
      else s.questionText := by
  unfold advanceQuestion
  split <;> rfl

theorem advanceQuestion_quizQuestionHtml (doc : QuizDoc) (s : QuizState) :
    (advanceQuestion doc s).quizQuestionHtml =
      if s.currentQuestion ≤ totalQuestions then s.quizQuestionHtml
      else (if doc.hasQuizQuestion then completionHtml else s.quizQuestionHtml) := by
  unfold advanceQuestion
  split <;> rfl

theorem selectAndWait_of_valid (doc : QuizDoc) (i : Nat) (s : QuizState)
    (hcard : doc.hasQuizCard = true) (hi : i < doc.numOptions) :
    selectAndWait doc i s =
      advanceQuestion doc
        { s with selected := {i}, currentQuestion := s.currentQuestion + 1 } := by
  unfold selectAndWait
  rw [clickOption_of_valid doc i s hcard hi]
  unfold delayFires
  rw [if_pos (Nat.succ_pos s.pendingTimeouts)]
  dsimp only
  rw [Nat.add_sub_cancel]

theorem runSelectionsAlong_concat (doc : QuizDoc) (choices : List Nat) (i : Nat)
    (s : QuizState) :
    runSelectionsAlong doc (choices ++ [i]) s =
      selectAndWait doc i (runSelectionsAlong doc choices s) := by
  unfold runSelectionsAlong
  rw [List.foldl_append]
  rfl

theorem delayFires_currentQuestion_cases (doc : QuizDoc) (s : QuizState) :
    (delayFires doc s).currentQuestion = s.currentQuestion ∨
    (delayFires doc s).currentQuestion = s.currentQuestion + 1 := by
  unfold delayFires
  split
  · right
    rw [advanceQuestion_currentQuestion]
  · left
    rfl

theorem percentString_coe_nat (n : Nat) :
    percentString ((n : ℚ)) = toString n ++ "%" := by
  unfold percentString
  rw [Rat.den_natCast, if_pos rfl, Rat.num_natCast]
  rfl

theorem progress_width_eval (n : Nat) :
    percentString (((n : ℚ) / (totalQuestions : ℚ)) * 100) = toString (n * 10) ++ "%" := by
  have h : ((n : ℚ) / (totalQuestions : ℚ)) * 100 = ((n * 10 : Nat) : ℚ) := by
    rw [show (totalQuestions : ℚ) = 10 from by norm_num [totalQuestions]]
    push_cast
    field_simp
    ring
  rw [h, percentString_coe_nat]

theorem selections_state (choices : List Nat)
    (hvalid : ∀ j ∈ choices, j < fullDoc.numOptions) :
    (runSelectionsAlong fullDoc choices initialQuizState).currentQuestion = choices.length + 1 ∧
    (runSelectionsAlong fullDoc choices initialQuizState).pendingTimeouts = 0 ∧
    (runSelectionsAlong fullDoc choices initialQuizState).progressText =
      (if choices.length + 1 ≤ totalQuestions then
         "Question " ++ toString (choices.length + 1) ++ " of " ++ toString totalQuestions
       else "Quiz Complete!") ∧
    (runSelectionsAlong fullDoc choices initialQuizState).progressFillWidth =
      (if choices.length + 1 ≤ totalQuestions then
         percentString (((choices.length + 1 : Nat) : ℚ) / (totalQuestions : ℚ) * 100)
       else "100%") := by
  induction choices using List.reverseRecOn with
  | nil =>
      refine ⟨rfl, rfl, by decide, ?_⟩
      rw [if_pos (show ([] : List Nat).length + 1 ≤ totalQuestions by decide),
          progress_width_eval]
      decide
  | append_singleton cs i IH =>
      have hi : i < fullDoc.numOptions := hvalid i (by simp)
      have hcs : ∀ j ∈ cs, j < fullDoc.numOptions := fun j hj => hvalid j (by simp [hj])
      obtain ⟨hcq, hpend, htext, hwidth⟩ := IH hcs
      have hlen : (cs ++ [i]).length = cs.length + 1 := by simp
      rw [runSelectionsAlong_concat,
          selectAndWait_of_valid fullDoc i _ rfl hi]
      refine ⟨?_, ?_, ?_, ?_⟩
      · rw [advanceQuestion_currentQuestion]
        dsimp only
        rw [hcq, hlen]
      · rw [advanceQuestion_pendingTimeouts]
        exact hpend
      · rw [advanceQuestion_progressText]
        dsimp only
        rw [hcq, hlen]
        by_cases h : cs.length + 1 + 1 ≤ totalQuestions
        · rw [if_pos h, if_pos h]
          rfl
        · rw [if_neg h, if_neg h]
          rfl
      · rw [advanceQuestion_progressFillWidth]
        dsimp only
        rw [hcq, hlen]
        by_cases h : cs.length + 1 + 1 ≤ totalQuestions
        · rw [if_pos h, if_pos h]
          norm_cast
        · rw [if_neg h, if_neg h]
          rfl

theorem quizStep_selected_card (doc : QuizDoc) (e : QuizEvent) (s : QuizState)
    (h : s.selected.card ≤ 1) : (quizStep doc s e).selected.card ≤ 1 := by
  cases e with
  | click i =>
      show (clickOption doc i s).selected.card ≤ 1
      unfold clickOption
      split
      · simp
      · exact h
  | delay =>
      show (delayFires doc s).selected.card ≤ 1
      unfold delayFires
      split
      · rw [advanceQuestion_selected]
        split
        · simp
        · exact h
      · exact h

theorem runEvents_selected_card (doc : QuizDoc) (evs : List QuizEvent) :
    ∀ s : QuizState, s.selected.card ≤ 1 → (runEvents doc evs s).selected.card ≤ 1 := by
  induction evs with
  | nil => exact fun s h => h
  | cons e evs IH =>
      intro s h
      exact IH (quizStep doc s e) (quizStep_selected_card doc e s h)

theorem runEvents_cq_le (doc : QuizDoc) (evs : List QuizEvent) :
    ∀ s : QuizState,
      (runEvents doc evs s).currentQuestion ≤ s.currentQuestion + countDelays evs := by
  induction evs with
  | nil =>
      intro s
      show s.currentQuestion ≤ s.currentQuestion + countDelays []
      rw [show countDelays [] = 0 from rfl]
      omega
  | cons e evs IH =>
      intro s
      cases e with
      | click i =>
          have h := IH (clickOption doc i s)
          rw [clickOption_currentQuestion] at h
          show (runEvents doc evs (clickOption doc i s)).currentQuestion ≤
            s.currentQuestion + countDelays (QuizEvent.click i :: evs)
          rw [show countDelays (QuizEvent.click i :: evs) = countDelays evs from rfl]
          exact h
      | delay =>
          have h := IH (delayFires doc s)
          show (runEvents doc evs (delayFires doc s)).currentQuestion ≤
            s.currentQuestion + countDelays (QuizEvent.delay :: evs)
          rw [show countDelays (QuizEvent.delay :: evs) = countDelays evs + 1 from rfl]
          rcases delayFires_currentQuestion_cases doc s with hc | hc
          · rw [hc] at h
            omega
          · rw [hc] at h
            omega

theorem runEvents_noCard (doc : QuizDoc) (hcard : doc.hasQuizCard = false)
    (evs : List QuizEvent) :
    runEvents doc evs initialQuizState = initialQuizState := by
  have hstep : ∀ e, quizStep doc initialQuizState e = initialQuizState := by
    intro e
    cases e with
    | click i =>
        show clickOption doc i initialQuizState = initialQuizState
        unfold clickOption
        rw [if_neg]
        intro hc
        rw [hcard] at hc
        exact Bool.noConfusion hc.1
    | delay =>
        show delayFires doc initialQuizState = initialQuizState
        unfold delayFires
        rw [if_neg]
        decide
  induction evs with
  | nil => rfl
  | cons e evs IH =>
      show runEvents doc evs (quizStep doc initialQuizState e) = initialQuizState
      rw [hstep e]
      exact IH

theorem observerCallback_eq_union (entries : List IntersectionEntry) :
    ∀ revealed : Finset Nat,
      observerCallback revealed entries = revealed ∪ intersectingTargets entries := by
  induction entries with
  | nil =>
      intro r
      show r = r ∪ intersectingTargets []
      rw [show intersectingTargets [] = ∅ from rfl, Finset.union_empty]
  | cons e es IH =>
      intro r
      show observerCallback (if e.isIntersecting then insert e.target r else r) es =
        r ∪ intersectingTargets (e :: es)
      rw [IH, show intersectingTargets (e :: es) =
        (if e.isIntersecting then insert e.target (intersectingTargets es)
         else intersectingTargets es) from rfl]
      by_cases h : e.isIntersecting
      · rw [if_pos h, if_pos h, Finset.insert_union, Finset.union_insert]
      · rw [if_neg h, if_neg h]

theorem runObserver_mono (batches : List (List IntersectionEntry)) :
    ∀ revealed : Finset Nat, revealed ⊆ runObserver revealed batches := by
  induction batches with
  | nil => exact fun r => Finset.Subset.refl r
  | cons es bs IH =>
      intro r
      have h1 : r ⊆ observerCallback r es := by
        rw [observerCallback_eq_union]
        exact Finset.subset_union_left
      exact h1.trans (IH (observerCallback r es))

theorem parallaxScrollHandler_getD (k : Nat) (scrolled : ℚ) (i : Nat) (h : i < k) :
    (parallaxScrollHandler k scrolled).getD i { translateY := 0, rotateDeg := 0 } =
      orbTransform scrolled i := by
  unfold parallaxScrollHandler
  rw [List.getD_eq_getElem?_getD, List.getElem?_map, List.getElem?_range h]
  rfl

/-! ### Claim theorems -/

/-- C1, counterexample: after exactly 9 selections (each with the delay
elapsed) the quiz preview is still at `AwaitingSelection 10`, not
`Completed` — refuting the claim that 9 selections reach `Completed`. -/
theorem quiz_nine_selections_not_completed :
    specPhase (runSelectionsAlong fullDoc (List.replicate 9 0) initialQuizState) =
      QuizPhase.awaitingSelection 10 ∧
    specPhase (runSelectionsAlong fullDoc (List.replicate 9 0) initialQuizState) ≠
      QuizPhase.completed := by
  constructor
  · decide
  · decide

/-- C1, amended: starting in `AwaitingSelection 1`, after exactly 10
selections (each followed by the delay elapsing) the state reaches
`Completed`; and once `Completed` is reached, any further option selection
(with its delay) leaves the state `Completed` — no transition out of
`Completed` occurs. -/
theorem quiz_completes_after_ten_selections :
    (∀ choices : List Nat, (∀ j ∈ choices, j < fullDoc.numOptions) →
       choices.length = 10 →
       specPhase (runSelectionsAlong fullDoc choices initialQuizState) =
         QuizPhase.completed) ∧
    (∀ (s : QuizState) (i : Nat), specPhase s = QuizPhase.completed →
       specPhase (selectAndWait fullDoc i s) = QuizPhase.completed) := by
  constructor
  · intro choices hvalid hlen
    obtain ⟨hcq, -, -, -⟩ := selections_state choices hvalid
    unfold specPhase
    rw [hcq, hlen]
    rfl
  · intro s i h
    have hgt : totalQuestions < s.currentQuestion := by
      by_contra hle
      push_neg at hle
      unfold specPhase at h
      rw [if_pos hle] at h
      exact QuizPhase.noConfusion h
    have hcq2 : totalQuestions < (selectAndWait fullDoc i s).currentQuestion := by
      unfold selectAndWait
      rcases delayFires_currentQuestion_cases fullDoc (clickOption fullDoc i s) with hc | hc
      · rw [hc, clickOption_currentQuestion]
        omega
      · rw [hc, clickOption_currentQuestion]
        omega
    unfold specPhase
    rw [if_neg (by omega)]

theorem quiz_completes_after_ten_selections_witness :
    specPhase
      (selectAndWait fullDoc 0
        (runSelectionsAlong fullDoc (List.replicate 10 0) initialQuizState)) =
      QuizPhase.completed :=
  quiz_completes_after_ten_selections.2
    (runSelectionsAlong fullDoc (List.replicate 10 0) initialQuizState) 0 (by decide)

/-- C2, counterexample: after 11 selections (clicking keeps working after
completion) the counter `currentQuestion` reaches 12, exceeding the claimed
bound `totalQuestions + 1 = 11`. -/
theorem quiz_counter_exceeds_sentinel :
    totalQuestions + 1 <
      (runSelectionsAlong fullDoc (List.replicate 11 0) initialQuizState).currentQuestion := by
  decide

/-- C2, amended: `currentQuestion` starts at 1 and never decreases under any
event, and it is bounded by `totalQuestions + 1 = 11` as long as at most 10
delayed transitions have fired; option clicks after completion keep firing
transitions and push it beyond 11. -/
theorem quiz_counter_monotone_bounded :
    initialQuizState.currentQuestion = 1 ∧
    (∀ (doc : QuizDoc) (e : QuizEvent) (s : QuizState),
       s.currentQuestion ≤ (quizStep doc s e).currentQuestion) ∧
    (∀ (doc : QuizDoc) (evs : List QuizEvent), countDelays evs ≤ totalQuestions →
       (runEvents doc evs initialQuizState).currentQuestion ≤ totalQuestions + 1) := by
  refine ⟨rfl, ?_, ?_⟩
  · intro doc e s
    cases e with
    | click i =>
        show s.currentQuestion ≤ (clickOption doc i s).currentQuestion
        rw [clickOption_currentQuestion]
    | delay =>
        show s.currentQuestion ≤ (delayFires doc s).currentQuestion
        rcases delayFires_currentQuestion_cases doc s with hc | hc
        · rw [hc]
        · rw [hc]
          omega
  · intro doc evs h
    have hle := runEvents_cq_le doc evs initialQuizState
    rw [show initialQuizState.currentQuestion = 1 from rfl] at hle
    omega

theorem quiz_counter_monotone_bounded_witness :
    (runEvents fullDoc [QuizEvent.click 0, QuizEvent.delay]
        initialQuizState).currentQuestion ≤ totalQuestions + 1 :=
  quiz_counter_monotone_bounded.2.2 fullDoc [QuizEvent.click 0, QuizEvent.delay]
    (by decide)

/-- C3, counterexample: the transition taken from `AwaitingSelection 1` (the
initial state) updates the progress indicator to "Question 2 of 10" and 20%
width — not to "Question 1 of 10" and 10% width as the claim, read with `n`
the source state of the transition, predicts. -/
theorem progress_after_first_transition_shows_two :
    (selectAndWait fullDoc 0 initialQuizState).progressText = "Question 2 of 10" ∧
    (selectAndWait fullDoc 0 initialQuizState).progressText ≠ "Question 1 of 10" ∧
    (selectAndWait fullDoc 0 initialQuizState).progressFillWidth = "20%" ∧
    (selectAndWait fullDoc 0 initialQuizState).progressFillWidth ≠ "10%" := by
  have hw := (selections_state [0] (by decide)).2.2.2
  rw [if_pos (show ([0] : List Nat).length + 1 ≤ totalQuestions by decide),
      progress_width_eval] at hw
  have hw2 : (selectAndWait fullDoc 0 initialQuizState).progressFillWidth = "20%" :=
    hw.trans (by decide)
  refine ⟨by decide, by decide, hw2, ?_⟩
  rw [hw2]
  decide

/-- C3, amended: the transition taken from `AwaitingSelection n` lands on
question `n + 1`, and the progress indicator is updated with the target
index: width `((n+1)/10)*100` percent — the integer `(n+1)*10` followed by a
percent sign — and text "Question n+1 of 10" (when `n + 1 ≤ 10`); on the
transition reaching `Completed` (from `AwaitingSelection 10`), the question
display is replaced with the completion message, the progress width is set
to "100%" and the progress text to "Quiz Complete!". -/
theorem progress_update_uses_target_index :
    (∀ (s : QuizState) (i : Nat), i < fullDoc.numOptions →
       s.currentQuestion + 1 ≤ totalQuestions →
       (selectAndWait fullDoc i s).progressFillWidth =
         percentString (((s.currentQuestion + 1 : Nat) : ℚ) / (totalQuestions : ℚ) * 100) ∧
       (selectAndWait fullDoc i s).progressFillWidth =
         toString ((s.currentQuestion + 1) * 10) ++ "%" ∧
       (selectAndWait fullDoc i s).progressText =
         "Question " ++ toString (s.currentQuestion + 1) ++ " of " ++ toString totalQuestions) ∧
    (∀ (s : QuizState) (i : Nat), i < fullDoc.numOptions →
       s.currentQuestion = totalQuestions →
       (selectAndWait fullDoc i s).quizQuestionHtml = completionHtml ∧
       (selectAndWait fullDoc i s).progressFillWidth = "100%" ∧
       (selectAndWait fullDoc i s).progressText = "Quiz Complete!") := by
  constructor
  · intro s i hi h
    rw [selectAndWait_of_valid fullDoc i s rfl hi]
    have hwidth : (advanceQuestion fullDoc
        { s with selected := {i}, currentQuestion := s.currentQuestion + 1 }).progressFillWidth =
        percentString (((s.currentQuestion + 1 : Nat) : ℚ) / (totalQuestions : ℚ) * 100) := by
      rw [advanceQuestion_progressFillWidth]
      dsimp only
      rw [if_pos h]
      rfl
    refine ⟨hwidth, hwidth.trans (progress_width_eval (s.currentQuestion + 1)), ?_⟩
    rw [advanceQuestion_progressText]
    dsimp only
    rw [if_pos h]
    rfl
  · intro s i hi h
    rw [selectAndWait_of_valid fullDoc i s rfl hi]
    have hgt : ¬ (s.currentQuestion + 1 ≤ totalQuestions) := by omega
    refine ⟨?_, ?_, ?_⟩
    · rw [advanceQuestion_quizQuestionHtml]
      dsimp only
      rw [if_neg hgt]
      rfl
    · rw [advanceQuestion_progressFillWidth]
      dsimp only
      rw [if_neg hgt]
      rfl
    · rw [advanceQuestion_progressText]
      dsimp only
      rw [if_neg hgt]
      rfl

theorem progress_update_uses_target_index_witness :
    (selectAndWait fullDoc 1 initialQuizState).progressFillWidth =
      toString ((initialQuizState.currentQuestion + 1) * 10) ++ "%" ∧
    (selectAndWait fullDoc 1 initialQuizState).progressText =
      "Question " ++ toString (initialQuizState.currentQuestion + 1) ++ " of " ++
        toString totalQuestions := by
  obtain ⟨-, hw, ht⟩ :=
    progress_update_uses_target_index.1 initialQuizState 1 (by decide) (by decide)
  exact ⟨hw, ht⟩

/-- C4: for every sequence of fewer than 10 selections of existing options
(each with the delay elapsed), the progress text reads "Question n+1 of 10"
where `n` is the number of selections; after 10 selections it reads
"Quiz Complete!"; and the first selection makes the width "20%" and the text
"Question 2 of 10". -/
theorem progress_text_after_n_selections :
    (∀ choices : List Nat, (∀ j ∈ choices, j < fullDoc.numOptions) →
       choices.length < totalQuestions →
       (runSelectionsAlong fullDoc choices initialQuizState).progressText =
         "Question " ++ toString (choices.length + 1) ++ " of " ++ toString totalQuestions) ∧
    (∀ choices : List Nat, (∀ j ∈ choices, j < fullDoc.numOptions) →
       choices.length = totalQuestions →
       (runSelectionsAlong fullDoc choices initialQuizState).progressText =
         "Quiz Complete!") ∧
    (∀ i : Nat, i < fullDoc.numOptions →
       (selectAndWait fullDoc i initialQuizState).progressFillWidth = "20%" ∧
       (selectAndWait fullDoc i initialQuizState).progressText = "Question 2 of 10") := by
  refine ⟨?_, ?_, ?_⟩
  · intro choices hvalid hlen
    obtain ⟨-, -, htext, -⟩ := selections_state choices hvalid
    rw [htext, if_pos (by omega)]
  · intro choices hvalid hlen
    obtain ⟨-, -, htext, -⟩ := selections_state choices hvalid
    rw [htext, if_neg (by omega)]
  · intro i hi
    have hvalid : ∀ j ∈ ([i] : List Nat), j < fullDoc.numOptions := by
      intro j hj
      rw [List.mem_singleton] at hj
      rw [hj]
      exact hi
    obtain ⟨-, -, htext, hwidth⟩ := selections_state [i] hvalid
    rw [show ([i] : List Nat).length = 1 from rfl] at htext hwidth
    rw [if_pos (show 1 + 1 ≤ totalQuestions by decide), progress_width_eval] at hwidth
    rw [if_pos (show 1 + 1 ≤ totalQuestions by decide)] at htext
    exact ⟨hwidth.trans (by decide), htext.trans (by decide)⟩

theorem progress_text_after_n_selections_witness :
    (runSelectionsAlong fullDoc [0, 1, 2] initialQuizState).progressText =
      "Question " ++ toString (([0, 1, 2] : List Nat).length + 1) ++ " of " ++
        toString totalQuestions :=
  progress_text_after_n_selections.1 [0, 1, 2] (by decide) (by decide)

/-- C5: clicking any existing option makes it the unique selected option
(the handler first strips `selected` from every option, then marks the
clicked one); and along every sequence of quiz events, if at most one option
is marked `selected` then at most one stays marked — in particular from the
page's initial state, where none is. -/
theorem selected_mutual_exclusion :
    (∀ (i : Nat) (s : QuizState), i < fullDoc.numOptions →
       (clickOption fullDoc i s).selected = {i}) ∧
    (∀ (doc : QuizDoc) (evs : List QuizEvent) (s : QuizState),
       s.selected.card ≤ 1 → (runEvents doc evs s).selected.card ≤ 1) ∧
    initialQuizState.selected.card ≤ 1 := by
  refine ⟨?_, ?_, by decide⟩
  · intro i s hi
    rw [clickOption_of_valid fullDoc i s rfl hi]
  · intro doc evs s h
    exact runEvents_selected_card doc evs s h

theorem selected_mutual_exclusion_witness :
    (clickOption fullDoc 2 initialQuizState).selected = {2} ∧
    (runEvents fullDoc [QuizEvent.click 0, QuizEvent.delay, QuizEvent.click 3]
        initialQuizState).selected.card ≤ 1 :=
  ⟨selected_mutual_exclusion.1 2 initialQuizState (by decide),
   selected_mutual_exclusion.2.1 fullDoc
     [QuizEvent.click 0, QuizEvent.delay, QuizEvent.click 3] initialQuizState (by decide)⟩

/-- C6: evaluating the anchor click handler at the failing input.  A link
with `href="#"` matches the selector `a[href^="#"]`, and on click the
handler passes the raw string of a single hash sign to
`document.querySelector`, which throws a `SyntaxError` — contradicting the
claim that handling the click never throws.  For a fragment that is a valid
selector the claimed behavior does hold: no match gives a suppressed click
with no scroll, and a match gives a smooth scroll aligned to the top. -/
theorem anchor_click_bare_hash_throws :
    handleAnchorClick ["top"] "#" = Except.error "SyntaxError: not a valid selector" ∧
    handleAnchorClick ["top"] "#missing" =
      Except.ok { defaultPrevented := true, scrolled := none } ∧
    handleAnchorClick ["top"] "#top" =
      Except.ok { defaultPrevented := true,
                  scrolled := some { target := "top", behavior := "smooth",
                                     block := "start" } } := by
  refine ⟨rfl, rfl, rfl⟩

/-- C7: the reveal mark is monotone and idempotent — an element in the
revealed set stays in it across every further sequence of observer
callbacks (in particular across entries reporting it as no longer
intersecting), and processing the same entry batch a second time changes
nothing. -/
theorem reveal_mark_monotone_idempotent :
    (∀ (batches : List (List IntersectionEntry)) (revealed : Finset Nat) (x : Nat),
       x ∈ revealed → x ∈ runObserver revealed batches) ∧
    (∀ (entries : List IntersectionEntry) (revealed : Finset Nat),
       observerCallback (observerCallback revealed entries) entries =
         observerCallback revealed entries) := by
  constructor
  · intro batches revealed x hx
    exact runObserver_mono batches revealed hx
  · intro entries revealed
    rw [observerCallback_eq_union, observerCallback_eq_union, Finset.union_assoc,
        Finset.union_self]

theorem reveal_mark_monotone_idempotent_witness :
    (3 : Nat) ∈ runObserver {3}
      [[{ target := 5, isIntersecting := true }],
       [{ target := 3, isIntersecting := false }]] :=
  reveal_mark_monotone_idempotent.1
    [[{ target := 5, isIntersecting := true }],
     [{ target := 3, isIntersecting := false }]] {3} 3 (by decide)

/-- C8: the preview holds exactly 5 question strings; a selection landing on
question `n + 1 ≤ 5` writes `questions[n]` into the displayed question text
(so only questions 2 through 5 ever get written); a selection landing
beyond the string list (but not past question 10) leaves the prior text
unchanged; and the first selection displays "How do you handle stress?". -/
theorem question_list_static_updates :
    questions.length = 5 ∧
    (∀ i : Nat, i < fullDoc.numOptions →
       (selectAndWait fullDoc i initialQuizState).questionText =
         "How do you handle stress?") ∧
    (∀ (s : QuizState) (i : Nat), i < fullDoc.numOptions →
       s.currentQuestion + 1 ≤ questions.length →
       (selectAndWait fullDoc i s).questionText =
         questions.getD s.currentQuestion "undefined") ∧
    (∀ (s : QuizState) (i : Nat), i < fullDoc.numOptions →
       questions.length < s.currentQuestion + 1 →
       s.currentQuestion + 1 ≤ totalQuestions →
       (selectAndWait fullDoc i s).questionText = s.questionText) := by
  have h3 : ∀ (s : QuizState) (i : Nat), i < fullDoc.numOptions →
      s.currentQuestion + 1 ≤ questions.length →
      (selectAndWait fullDoc i s).questionText =
        questions.getD s.currentQuestion "undefined" := by
    intro s i hi h
    rw [selectAndWait_of_valid fullDoc i s rfl hi, advanceQuestion_questionText]
    dsimp only
    have hq : questions.length = 5 := rfl
    have ht : totalQuestions = 10 := rfl
    rw [if_pos (by omega), if_pos ⟨rfl, h⟩, Nat.add_sub_cancel]
  refine ⟨rfl, ?_, h3, ?_⟩
  · intro i hi
    rw [h3 initialQuizState i hi (by decide)]
    decide
  · intro s i hi hgt hle
    rw [selectAndWait_of_valid fullDoc i s rfl hi, advanceQuestion_questionText]
    dsimp only
    rw [if_pos hle, if_neg]
    intro hc
    omega

theorem question_list_static_updates_witness :
    (selectAndWait fullDoc 3 initialQuizState).questionText =
      "How do you handle stress?" :=
  question_list_static_updates.2.1 3 (by decide)

/-- C9: on a scroll event at position `scrolled`, the transform applied to
the orb with 0-based index `i` has vertical translation equal to `scrolled`
scaled by the per-element speed factor `(i+1) * 0.1` with common
proportionality constant `-0.5` pixels per scroll unit, and rotation equal
to `scrolled` scaled by the constant `0.1` degrees per scroll unit. -/
theorem parallax_transform_proportional :
    ∀ (scrolled : ℚ) (k i : Nat), i < k →
      ((parallaxScrollHandler k scrolled).getD i
          { translateY := 0, rotateDeg := 0 }).translateY =
        (-(1 / 2) * (((i : ℚ) + 1) * (1 / 10))) * scrolled ∧
      ((parallaxScrollHandler k scrolled).getD i
          { translateY := 0, rotateDeg := 0 }).rotateDeg =
        (1 / 10) * scrolled := by
  intro scrolled k i h
  rw [parallaxScrollHandler_getD k scrolled i h]
  unfold orbTransform
  dsimp only
  constructor
  · ring
  · ring

theorem parallax_transform_proportional_witness :
    ((parallaxScrollHandler 3 7).getD 1
        { translateY := 0, rotateDeg := 0 }).translateY =
      (-(1 / 2) * ((((1 : Nat) : ℚ) + 1) * (1 / 10))) * 7 ∧
    ((parallaxScrollHandler 3 7).getD 1
        { translateY := 0, rotateDeg := 0 }).rotateDeg =
      (1 / 10) * 7 :=
  parallax_transform_proportional 7 3 1 (by decide)

/-- C10: in any document with the quiz card present, clicking an existing
option always applies the selection mark and (after the delay) increments
the counter, and each presentation target is updated exactly when its
element is present and left untouched when absent, independently of the
other targets — on an advancing click (landing on a question) the progress
text, progress width and question text per `updateProgress` and
`simulateNextQuestion`, and on a completing or post-completion click the
question display, progress width and progress text per `showQuizComplete`;
absence of the quiz card root disables the whole component. -/
theorem quiz_targets_guarded_independently :
    (∀ (doc : QuizDoc) (i : Nat) (s : QuizState),
       doc.hasQuizCard = true → i < doc.numOptions →
       (clickOption doc i s).selected = {i} ∧
       (selectAndWait doc i s).currentQuestion = s.currentQuestion + 1 ∧
       (s.currentQuestion + 1 ≤ totalQuestions →
         ((selectAndWait doc i s).progressText =
            if doc.hasProgressText then
              "Question " ++ toString (s.currentQuestion + 1) ++ " of " ++
                toString totalQuestions
            else s.progressText) ∧
         ((selectAndWait doc i s).progressFillWidth =
            if doc.hasProgressFill then
              percentString (((s.currentQuestion + 1 : Nat) : ℚ) / (totalQuestions : ℚ) * 100)
            else s.progressFillWidth) ∧
         ((selectAndWait doc i s).questionText =
            if doc.hasQuestionText ∧ s.currentQuestion + 1 ≤ questions.length then
              questions.getD s.currentQuestion "undefined"
            else s.questionText) ∧
         (selectAndWait doc i s).quizQuestionHtml = s.quizQuestionHtml) ∧
       (totalQuestions < s.currentQuestion + 1 →
         ((selectAndWait doc i s).quizQuestionHtml =
            if doc.hasQuizQuestion then completionHtml else s.quizQuestionHtml) ∧
         ((selectAndWait doc i s).progressFillWidth =
            if doc.hasProgressFill then "100%" else s.progressFillWidth) ∧
         ((selectAndWait doc i s).progressText =
            if doc.hasProgressText then "Quiz Complete!" else s.progressText) ∧
         (selectAndWait doc i s).questionText = s.questionText)) ∧
    (∀ (doc : QuizDoc) (evs : List QuizEvent), doc.hasQuizCard = false →
       runEvents doc evs initialQuizState = initialQuizState) := by
  constructor
  · intro doc i s hcard hi
    refine ⟨?_, ?_, ?_, ?_⟩
    · rw [clickOption_of_valid doc i s hcard hi]
    · rw [selectAndWait_of_valid doc i s hcard hi, advanceQuestion_currentQuestion]
    · intro h
      rw [selectAndWait_of_valid doc i s hcard hi]
      refine ⟨?_, ?_, ?_, ?_⟩
      · rw [advanceQuestion_progressText]
        dsimp only
        rw [if_pos h]
      · rw [advanceQuestion_progressFillWidth]
        dsimp only
        rw [if_pos h]
      · rw [advanceQuestion_questionText]
        dsimp only
        rw [if_pos h, Nat.add_sub_cancel]
      · rw [advanceQuestion_quizQuestionHtml]
        dsimp only
        rw [if_pos h]
    · intro h
      have hneg : ¬ (s.currentQuestion + 1 ≤ totalQuestions) := by omega
      rw [selectAndWait_of_valid doc i s hcard hi]
      refine ⟨?_, ?_, ?_, ?_⟩
      · rw [advanceQuestion_quizQuestionHtml]
        dsimp only
        rw [if_neg hneg]
      · rw [advanceQuestion_progressFillWidth]
        dsimp only
        rw [if_neg hneg]
      · rw [advanceQuestion_progressText]
        dsimp only
        rw [if_neg hneg]
      · rw [advanceQuestion_questionText]
        dsimp only
        rw [if_neg hneg]
  · intro doc evs hcard
    exact runEvents_noCard doc hcard evs

theorem quiz_targets_guarded_independently_witness :
    (clickOption noFillDoc 1 initialQuizState).selected = {1} ∧
    (selectAndWait noFillDoc 1 initialQuizState).currentQuestion =
      initialQuizState.currentQuestion + 1 ∧
    (selectAndWait noFillDoc 1 initialQuizState).progressFillWidth =
      initialQuizState.progressFillWidth ∧
    (selectAndWait noFillDoc 1 initialQuizState).progressText = "Question 2 of 10" ∧
    (selectAndWait noFillDoc 1
        { initialQuizState with currentQuestion := 10 }).quizQuestionHtml =
      completionHtml ∧
    (selectAndWait noFillDoc 1
        { initialQuizState with currentQuestion := 10 }).progressFillWidth =
      ({ initialQuizState with currentQuestion := 10 } : QuizState).progressFillWidth ∧
    (selectAndWait noFillDoc 1
        { initialQuizState with currentQuestion := 10 }).progressText =
      "Quiz Complete!" := by
  obtain ⟨h1, h2, h3, -⟩ :=
    quiz_targets_guarded_independently.1 noFillDoc 1 initialQuizState rfl (by decide)
  obtain ⟨ht, hw, -, -⟩ := h3 (by decide)
  obtain ⟨-, -, -, h4⟩ :=
    quiz_targets_guarded_independently.1 noFillDoc 1
      { initialQuizState with currentQuestion := 10 } rfl (by decide)
  obtain ⟨hq, hw2, ht2, -⟩ := h4 (by decide)
  refine ⟨h1, h2, ?_, ?_, ?_, ?_, ?_⟩
  · rw [hw, if_neg (show ¬ noFillDoc.hasProgressFill = true from by decide)]
  · rw [ht, if_pos (show noFillDoc.hasProgressText = true from rfl)]
    decide
  · rw [hq, if_pos (show noFillDoc.hasQuizQuestion = true from rfl)]
  · rw [hw2, if_neg (show ¬ noFillDoc.hasProgressFill = true from by decide)]
  · rw [ht2, if_pos (show noFillDoc.hasProgressText = true from rfl)]
